import Mathlib

/-!
Verification of the tiptap-pdf-generator service.

The development shallowly embeds the request handler (src/index.ts), the
static-template backend (src/pdf-generator.ts, wkhtmltopdf + Handlebars) and
the browser-engine backend (the two Puppeteer generator modules) and proves
properties of request validation, document composition, margin selection,
error wrapping and renderer-process cleanup.

External effects are passed in explicitly: each awaited step that can throw is
an `Except` value in an environment record, file reads appear as `Option
String` (the file content when the file exists), and the millisecond clock
`Date.now()` is a `Nat` parameter.
-/

namespace PdfService

/-- Decidable equality for `Except`, needed so run outcomes can be compared
by `decide` in concrete witnesses. -/
instance {ε α : Type} [DecidableEq ε] [DecidableEq α] : DecidableEq (Except ε α) := fun x y =>
  match x, y with
  | .ok a, .ok b =>
      if h : a = b then .isTrue (by rw [h])
      else .isFalse (by intro he; cases he; exact h rfl)
  | .error a, .error b =>
      if h : a = b then .isTrue (by rw [h])
      else .isFalse (by intro he; cases he; exact h rfl)
  | .ok _, .error _ => .isFalse (by intro h; cases h)
  | .error _, .ok _ => .isFalse (by intro h; cases h)

/-- A thrown JavaScript value: either an `Error` instance carrying a message,
or any other thrown value (for which `error instanceof Error` is false). -/
inductive JsThrown where
  | error (message : String)
  | nonError
  deriving DecidableEq, Repr

/-- The expression `error instanceof Error ? error.message : 'Unknown error'`,
as it appears in the handler of src/index.ts and in the catch block of each
generator. -/
def jsErrorText : JsThrown → String
  | .error m => m
  | .nonError => "Unknown error"

/-- JavaScript truthiness of an optional string field: `undefined` (here
`none`) and the empty string are falsy, every other string is truthy. -/
def strTruthy : Option String → Bool
  | none => false
  | some s => !s.isEmpty

/-- A Node `Buffer` of PDF output, as a list of bytes. -/
abbrev Buffer := List Nat

/-- The `margin` option object: four optional CSS lengths. -/
structure Margin where
  top : Option String := none
  right : Option String := none
  bottom : Option String := none
  left : Option String := none
  deriving DecidableEq, Repr

/-- The `PdfGenerationOptions` interface shared by all generator modules. -/
structure PdfGenerationOptions where
  html : String
  css : Option String := none
  format : Option String := none
  margin : Option Margin := none
  logoUrl : Option String := none
  logoPosition : Option String := none
  deriving DecidableEq, Repr

/-- The destructuring default for `margin` in every generator:
`{ top: '2.12cm', right: '1.5cm', bottom: '2.12cm', left: '1.5cm' }`. -/
def defaultMargin : Margin :=
  { top := some "2.12cm", right := some "1.5cm"
    bottom := some "2.12cm", left := some "1.5cm" }

/-- Effective margin after destructuring (`margin = {...defaults}`). -/
def effMargin (o : PdfGenerationOptions) : Margin := o.margin.getD defaultMargin

/-- Effective logo position after destructuring (`logoPosition = 'LEFT'`). -/
def effLogoPosition (o : PdfGenerationOptions) : String := o.logoPosition.getD "LEFT"

/-- Effective page format after destructuring (`format = 'A4'`). -/
def effFormat (o : PdfGenerationOptions) : String := o.format.getD "A4"

/-- `const finalCss = ` followed by the template
`${defaultCss}\n${css || ''}` — the same line appears in both Puppeteer
generators and in src/pdf-generator.ts.  `defaultCss` is the content of
`styles.css` when that file exists (guarded by `fs.existsSync`) and the empty
string otherwise, which the `Option.getD` models. -/
def finalCss (defaultCss : Option String) (css : Option String) : String :=
  defaultCss.getD "" ++ "\n" ++ css.getD ""

/-- The `alignStyle` variable of `generateLogoHtml` (identical in both
Puppeteer generator modules): a switch over the position with no default
case, so an unrecognized value leaves the initial empty string. -/
def logoAlignStyle (position : String) : String :=
  if position = "LEFT" then "text-align: left;"
  else if position = "CENTER" then "text-align: center;"
  else if position = "RIGHT" then "text-align: right;"
  else if position = "FULL_WIDTH" then "text-align: center;"
  else ""

/-- The `logoWidth` variable of `generateLogoHtml`: `'120px'` unless the
FULL_WIDTH case overwrites it with `'100%'`. -/
def logoWidthStyle (position : String) : String :=
  if position = "FULL_WIDTH" then "100%" else "120px"

/-- The `max-height` interpolation of `generateLogoHtml`:
`position === 'FULL_WIDTH' ? '80px' : '60px'`. -/
def logoMaxHeight (position : String) : String :=
  if position = "FULL_WIDTH" then "80px" else "60px"

/-- `generateLogoHtml(logoUrl, position)` as defined (identically) in both
Puppeteer generator modules: the returned header template literal. -/
def generateLogoHtml (logoUrl : String) (position : String) : String :=
  "\n    <header style=\"margin-bottom: 32px; padding-bottom: 24px; " ++
    logoAlignStyle position ++
    "\">\n      <img src=\"" ++ logoUrl ++ "\" alt=\"Logo\" style=\"width: " ++
    logoWidthStyle position ++ "; max-height: " ++ logoMaxHeight position ++
    "; object-fit: contain;\" />\n    </header>\n  "

/-- The `fullHtml` template literal of the Puppeteer generators, as a function
of the three interpolated fragments. -/
def puppeteerFullHtml (finalCssText : String) (logoHtml : String) (html : String) : String :=
  "\n<!DOCTYPE html>\n<html>\n<head>\n  <meta charset=\"UTF-8\">\n  <style>\n    " ++
    finalCssText ++
    "\n  </style>\n</head>\n<body>\n  " ++ logoHtml ++
    "\n  <main>\n    " ++ html ++ "\n  </main>\n</body>\n</html>\n    "

/-- `const logoHtml = logoUrl ? generateLogoHtml(logoUrl, logoPosition) : ''`. -/
def puppeteerLogoHtml (o : PdfGenerationOptions) : String :=
  if strTruthy o.logoUrl then
    generateLogoHtml (o.logoUrl.getD "") (effLogoPosition o)
  else ""

/-- The `margin` object passed to `page.pdf` by the Puppeteer generators:
`top: logoUrl ? '4.23cm' : margin.top`, other sides passed through. -/
def puppeteerPdfMargin (o : PdfGenerationOptions) : Margin :=
  { top := if strTruthy o.logoUrl then some "4.23cm" else (effMargin o).top
    right := (effMargin o).right
    bottom := (effMargin o).bottom
    left := (effMargin o).left }

/-- Environment of one Puppeteer render call: the outcome of each awaited
browser step — including the awaited `browser.close()` of the finally block,
which can itself reject — and the optional content of `styles.css`. -/
structure BrowserEnv where
  launchResult : Except JsThrown Unit
  newPageResult : Except JsThrown Unit
  stylesCssFile : Option String
  setContentResult : Except JsThrown Unit
  pdfResult : Except JsThrown Buffer
  closeResult : Except JsThrown Unit
  deriving DecidableEq, Repr

/-- Observable outcome of one Puppeteer render call: the returned or thrown
value, whether `puppeteer.launch` succeeded (the `browser` variable became
non-null), whether `browser.close()` was executed, the markup handed to
`page.setContent` (when that call was reached) and the margin object handed
to `page.pdf` (when that call was reached). -/
structure BrowserRun where
  result : Except JsThrown Buffer
  browserLaunched : Bool
  browserClosed : Bool
  contentSet : Option String
  pdfMargin : Option Margin
  deriving DecidableEq, Repr

/-- The browser-engine render call.  This embeds `generatePdf` of the
on-demand Puppeteer module and `generatePdfWithPuppeteer` of the second
Puppeteer module: the two function bodies are identical apart from log
strings.  The try block runs launch, newPage, markup composition, setContent
and pdf in order; the catch block rethrows
`new Error('Failed to generate PDF: ' + cause)`; the finally block executes
`await browser.close()` whenever `browser` is non-null, i.e. whenever launch
succeeded.  The close call is unguarded, and by JavaScript semantics an
exception leaving a finally block supersedes the in-flight completion: a
rejected close replaces both the wrapped error rethrown by the catch block
and a successful return.  When launch fails, `browser` stays null and close
never runs. -/
def generatePdfPuppeteer (env : BrowserEnv) (options : PdfGenerationOptions) : BrowserRun :=
  match env.launchResult with
  | .error e =>
      { result := .error (.error ("Failed to generate PDF: " ++ jsErrorText e))
        browserLaunched := false, browserClosed := false
        contentSet := none, pdfMargin := none }
  | .ok _ =>
      let tryCatch : Except JsThrown Buffer × Option String × Option Margin :=
        match env.newPageResult with
        | .error e =>
            (.error (.error ("Failed to generate PDF: " ++ jsErrorText e)), none, none)
        | .ok _ =>
            let fullHtml := puppeteerFullHtml (finalCss env.stylesCssFile options.css)
              (puppeteerLogoHtml options) options.html
            match env.setContentResult with
            | .error e =>
                (.error (.error ("Failed to generate PDF: " ++ jsErrorText e)),
                  some fullHtml, none)
            | .ok _ =>
                match env.pdfResult with
                | .error e =>
                    (.error (.error ("Failed to generate PDF: " ++ jsErrorText e)),
                      some fullHtml, some (puppeteerPdfMargin options))
                | .ok buf =>
                    (.ok buf, some fullHtml, some (puppeteerPdfMargin options))
      { result :=
          match env.closeResult with
          | .ok _ => tryCatch.1
          | .error c => .error c
        browserLaunched := true, browserClosed := true
        contentSet := tryCatch.2.1, pdfMargin := tryCatch.2.2 }

/-- The `logoPositionMap` object of src/pdf-generator.ts: a record lookup
`logoPositionMap[pos]` that is `undefined` (here `none`) for keys outside the
four declared ones. -/
def logoPositionMap (pos : String) : Option String :=
  if pos = "LEFT" then some "left"
  else if pos = "CENTER" then some "center"
  else if pos = "RIGHT" then some "right"
  else if pos = "FULL_WIDTH" then some "center"
  else none

/-- The field object handed to the compiled Handlebars template in
src/pdf-generator.ts (`template({ content, css, logoUrl, logoPosition })`).
The template file itself (templates/document.hbs) is external input, so the
model records the fields passed to it. -/
structure WkTemplateData where
  content : String
  css : String
  logoUrl : Option String
  logoPosition : String
  deriving DecidableEq, Repr

/-- Builds the Handlebars field object: `content: html`, `css: finalCss`,
`logoUrl: logoUrl || null`, and
`logoPosition: logoPositionMap[logoPosition] || 'left'`. -/
def wkTemplateData (stylesCssFile : Option String) (o : PdfGenerationOptions) : WkTemplateData :=
  { content := o.html
    css := finalCss stylesCssFile o.css
    logoUrl := if strTruthy o.logoUrl then o.logoUrl else none
    logoPosition := (logoPositionMap (effLogoPosition o)).getD "left" }

/-- The `wkhtmlOptions` object passed to the wkhtmltopdf binding. -/
structure WkOptions where
  pageSize : String
  marginTop : Option String
  marginRight : Option String
  marginBottom : Option String
  marginLeft : Option String
  encoding : String
  printMediaType : Bool
  footerCenter : String
  footerFontSize : Nat
  footerSpacing : Nat
  headerHtml : Option String
  headerSpacing : Option Nat
  deriving DecidableEq, Repr

/-- The temporary header file name `header-${Date.now()}.html`, a function of
the observed millisecond clock value alone. -/
def wkHeaderFileName (now : Nat) : String :=
  "header-" ++ Nat.repr now ++ ".html"

/-- The full temporary header path `path.join(__dirname, 'temp', name)`
(forward slashes; the backslash replacement of the source is the identity on
such paths). -/
def wkHeaderPath (dirname : String) (now : Nat) : String :=
  dirname ++ "/temp/" ++ wkHeaderFileName now

/-- The `headerHtml` template literal written to the temporary header file
when a logo is present. -/
def wkHeaderHtml (logoUrl : String) (pos : String) : String :=
  "\n        <!DOCTYPE html>\n        <html>\n        <head>\n          <style>\n            body \x7b margin: 0; padding: 10px 15px; \x7d\n            .header-logo \x7b text-align: " ++
    (logoPositionMap pos).getD "left" ++
    "; margin: 0; \x7d\n            .header-logo img \x7b width: 120px; max-width: 100%; height: auto; \x7d\n          </style>\n        </head>\n        <body>\n          <div class=\"header-logo\">\n            <img src=\"" ++
    logoUrl ++
    "\" alt=\"Logo\">\n          </div>\n        </body>\n        </html>\n      "

/-- The base `wkhtmlOptions` object literal:
`marginTop: logoUrl ? '3cm' : margin.top`, other margins passed through,
fixed encoding, print-media emulation and footer settings. -/
def wkOptionsBase (o : PdfGenerationOptions) : WkOptions :=
  { pageSize := effFormat o
    marginTop := if strTruthy o.logoUrl then some "3cm" else (effMargin o).top
    marginRight := (effMargin o).right
    marginBottom := (effMargin o).bottom
    marginLeft := (effMargin o).left
    encoding := "UTF-8"
    printMediaType := true
    footerCenter := "Página [page] de [toPage]"
    footerFontSize := 10
    footerSpacing := 5
    headerHtml := none
    headerSpacing := none }

/-- The final `wkhtmlOptions` after the `if (logoUrl)` block: with a logo the
header file URI and `headerSpacing: 5` are added. -/
def wkOptionsFinal (o : PdfGenerationOptions) (dirname : String) (now : Nat) : WkOptions :=
  if strTruthy o.logoUrl then
    { wkOptionsBase o with
        headerHtml := some ("file:///" ++ wkHeaderPath dirname now)
        headerSpacing := some 5 }
  else wkOptionsBase o

/-- Environment of one wkhtmltopdf render call: the outcome of reading the
template file (`fs.readFileSync` with no existence guard, so a missing file
throws), the optional content of `styles.css` (guarded by `fs.existsSync`),
the module directory, the value `Date.now()` returns, and the outcome of the
external renderer stream. -/
structure WkEnv where
  templateFile : Except JsThrown String
  stylesCssFile : Option String
  dirname : String
  now : Nat
  streamResult : Except JsThrown Buffer
  deriving DecidableEq, Repr

/-- Observable outcome of one wkhtmltopdf render call: the returned or thrown
value, the Handlebars fields (when the template read succeeded), the final
renderer options, and the temporary header file written (path and content)
when a logo was present. -/
structure WkRun where
  result : Except JsThrown Buffer
  templateData : Option WkTemplateData
  wkhtmlOptions : Option WkOptions
  headerFileWritten : Option (String × String)
  deriving DecidableEq, Repr

/-- The static-template render call `generatePdf` of src/pdf-generator.ts.
The try block reads the template, composes the Handlebars fields and renderer
options, writes the header file when a logo is present, and awaits the
promise wrapping the wkhtmltopdf output stream (whose rejection the catch
block receives); the catch block rethrows
`new Error('Failed to generate PDF: ' + cause)`. -/
def generatePdfWk (env : WkEnv) (o : PdfGenerationOptions) : WkRun :=
  match env.templateFile with
  | .error e =>
      { result := .error (.error ("Failed to generate PDF: " ++ jsErrorText e))
        templateData := none, wkhtmlOptions := none, headerFileWritten := none }
  | .ok _ =>
      let data := wkTemplateData env.stylesCssFile o
      let opts := wkOptionsFinal o env.dirname env.now
      let headerFile :=
        if strTruthy o.logoUrl then
          some (wkHeaderPath env.dirname env.now,
                wkHeaderHtml (o.logoUrl.getD "") (effLogoPosition o))
        else none
      match env.streamResult with
      | .ok buf =>
          { result := .ok buf, templateData := some data
            wkhtmlOptions := some opts, headerFileWritten := headerFile }
      | .error e =>
          { result := .error (.error ("Failed to generate PDF: " ++ jsErrorText e))
            templateData := some data, wkhtmlOptions := some opts
            headerFileWritten := headerFile }

/-- The JSON body of a POST /generate-pdf request: the four fields the
handler destructures, each possibly absent. -/
structure GenerateRequestBody where
  html : Option String := none
  css : Option String := none
  logoUrl : Option String := none
  logoPosition : Option String := none
  deriving DecidableEq, Repr

/-- The body written to the HTTP response: a JSON error envelope (with its
fixed `error` field and optional `message` field) or raw PDF bytes. -/
inductive ResponseBody where
  | json (error : String) (message : Option String)
  | pdfBytes (buf : Buffer)
  deriving DecidableEq, Repr

/-- The HTTP response the handler produces. -/
structure HttpResponse where
  status : Nat
  contentType : Option String
  contentLength : Option Nat
  body : ResponseBody
  deriving DecidableEq, Repr

/-- The options object the handler of src/index.ts builds for `generatePdf`:
fixed format A4 and fixed margins, the body fields passed through. -/
def handlerOptions (req : GenerateRequestBody) : PdfGenerationOptions :=
  { html := req.html.getD ""
    css := req.css
    format := some "A4"
    margin := some { top := some "2.12cm", right := some "1.5cm"
                     bottom := some "2.12cm", left := some "1.5cm" }
    logoUrl := req.logoUrl
    logoPosition := req.logoPosition }

/-- The POST /generate-pdf handler of src/index.ts, parameterized by the
render backend.  Returns the response together with a flag recording whether
the backend was invoked.  `if (!html)` rejects with 400 before any rendering;
a successful render is sent with explicit content type and length (status 200
by default); a thrown value is mapped to the 500 envelope. -/
def handleGeneratePdf (render : PdfGenerationOptions → Except JsThrown Buffer)
    (req : GenerateRequestBody) : HttpResponse × Bool :=
  if !strTruthy req.html then
    ({ status := 400, contentType := none, contentLength := none
       body := .json "HTML is required" none }, false)
  else
    match render (handlerOptions req) with
    | .ok pdfBuffer =>
        ({ status := 200, contentType := some "application/pdf"
           contentLength := some pdfBuffer.length
           body := .pdfBytes pdfBuffer }, true)
    | .error e =>
        ({ status := 500, contentType := none, contentLength := none
           body := .json "Failed to generate PDF" (some (jsErrorText e)) }, true)

/-- The numeric value of a decimal digit character, when it is one. -/
def charDigitVal (c : Char) : Option Nat :=
  if c.isDigit then some (c.toNat - 48) else none

/-- Reads a nonempty all-digit character list as a natural number. -/
def digitsVal : List Char → Option Nat
  | [] => none
  | l =>
      l.foldl
        (fun acc c =>
          match acc, charDigitVal c with
          | some a, some d => some (a * 10 + d)
          | _, _ => none)
        (some 0)

/-- Parses a CSS centimetre length `<digits>cm`, `<digits>.<d>cm` or
`<digits>.<dd>cm` into hundredths of a centimetre, to compare the literal
margin values of the source numerically. -/
def parseCmHundredths (s : String) : Option Nat :=
  match s.data.reverse with
  | 'm' :: 'c' :: revNum =>
      let num := revNum.reverse
      match num.span (· ≠ '.') with
      | (w, []) => (digitsVal w).map (· * 100)
      | (w, _dot :: f) =>
          match digitsVal w, digitsVal f with
          | some wn, some fn =>
              if f.length = 1 then some (wn * 100 + fn * 10)
              else if f.length = 2 then some (wn * 100 + fn)
              else none
          | _, _ => none
  | _ => none

/-! ### Injectivity of the decimal rendering used in `header-${Date.now()}.html`

`Date.now()` is stringified by the template literal; distinct clock values
give distinct digit strings.  This is proved by interpreting the produced
digit list back into a number. -/

/-- Decimal value of a digit-character list, most significant first. -/
def digitsListVal (l : List Char) : Nat :=
  l.foldl (fun a c => a * 10 + (c.toNat - 48)) 0

theorem digitsListVal_append_single (l : List Char) (c : Char) :
    digitsListVal (l ++ [c]) = digitsListVal l * 10 + (c.toNat - 48) := by
  simp [digitsListVal, List.foldl_append]

theorem digitChar_toNat_sub (d : Nat) (h : d < 10) :
    (Nat.digitChar d).toNat - 48 = d := by
  interval_cases d <;> decide

theorem toDigitsCore_append (b : Nat) :
    ∀ (f n : Nat) (ds : List Char),
      Nat.toDigitsCore b f n ds = Nat.toDigitsCore b f n [] ++ ds := by
  intro f
  induction f with
  | zero => intro n ds; simp [Nat.toDigitsCore]
  | succ f ih =>
      intro n ds
      simp only [Nat.toDigitsCore]
      by_cases h : n / b = 0
      · simp [h]
      · simp only [h, if_false]
        rw [ih (n / b) (Nat.digitChar (n % b) :: ds),
          ih (n / b) [Nat.digitChar (n % b)], List.append_assoc]
        rfl

theorem toDigitsCore_val :
    ∀ (f n : Nat), n < f → digitsListVal (Nat.toDigitsCore 10 f n []) = n := by
  intro f
  induction f with
  | zero => intro n h; omega
  | succ f ih =>
      intro n h
      simp only [Nat.toDigitsCore]
      by_cases h0 : n / 10 = 0
      · have hn : n < 10 := by omega
        simp only [h0, if_true]
        simp [digitsListVal, digitChar_toNat_sub (n % 10) (Nat.mod_lt n (by omega) )]
        omega
      · have hge : 1 ≤ n := by omega
        have hdiv : n / 10 < n := Nat.div_lt_self hge (by omega)
        simp only [h0, if_false]
        rw [toDigitsCore_append, digitsListVal_append_single,
          ih (n / 10) (by omega),
          digitChar_toNat_sub (n % 10) (Nat.mod_lt n (by omega))]
        omega

theorem digitsListVal_toDigits (n : Nat) :
    digitsListVal (Nat.toDigits 10 n) = n :=
  toDigitsCore_val (n + 1) n (Nat.lt_succ_self n)

theorem natRepr_injective {m n : Nat} (h : Nat.repr m = Nat.repr n) : m = n := by
  have hd : Nat.toDigits 10 m = Nat.toDigits 10 n := congrArg String.data h
  calc m = digitsListVal (Nat.toDigits 10 m) := (digitsListVal_toDigits m).symm
    _ = digitsListVal (Nat.toDigits 10 n) := by rw [hd]
    _ = n := digitsListVal_toDigits n

/-- Distinct naturals render to distinct decimal digit lists. -/
theorem natReprData_inj {t1 t2 : Nat} (hr : (Nat.repr t1).data = (Nat.repr t2).data) :
    t1 = t2 := by
  calc t1 = digitsListVal (Nat.toDigits 10 t1) := (digitsListVal_toDigits t1).symm
    _ = digitsListVal (Nat.toDigits 10 t2) := by
        have hd : Nat.toDigits 10 t1 = Nat.toDigits 10 t2 := hr
        rw [hd]
    _ = t2 := digitsListVal_toDigits t2

/-! ### The claims -/

/-- C1: for every browser-engine render call (`generatePdf` of the on-demand
Puppeteer module and `generatePdfWithPuppeteer` of the second Puppeteer
module), if the browser process was launched then `browser.close()` executes
before the call returns — on the success path and on every path where page
creation, content loading or PDF printing throws; the handle is never
leaked. -/
theorem puppeteer_browser_always_closed (env : BrowserEnv) (options : PdfGenerationOptions)
    (h : (generatePdfPuppeteer env options).browserLaunched = true) :
    (generatePdfPuppeteer env options).browserClosed = true := by
  obtain ⟨l, np, st, sc, pf, cl⟩ := env
  cases l with
  | error e => simp [generatePdfPuppeteer] at h
  | ok u => simp [generatePdfPuppeteer]

/-- Witness for C1: a concrete render in which PDF printing throws still
closes the browser. -/
theorem puppeteer_browser_always_closed_witness :
    (generatePdfPuppeteer
      { launchResult := .ok (), newPageResult := .ok (), stylesCssFile := none
        setContentResult := .ok (), pdfResult := .error (.error "boom")
        closeResult := .ok () }
      { html := "<p>x</p>" }).browserClosed = true :=
  puppeteer_browser_always_closed _ _ (by decide)

/-- C2: a POST /generate-pdf request whose body lacks `html` or carries an
empty `html` is answered with status 400 and body
`error: "HTML is required"`, and the render backend is never invoked. -/
theorem missing_html_rejected_without_render
    (render : PdfGenerationOptions → Except JsThrown Buffer)
    (req : GenerateRequestBody) (h : strTruthy req.html = false) :
    handleGeneratePdf render req =
      ({ status := 400, contentType := none, contentLength := none
         body := .json "HTML is required" none }, false) := by
  unfold handleGeneratePdf
  rw [h]
  simp

/-- Witness for C2: the empty body is rejected and the backend not called. -/
theorem missing_html_rejected_without_render_witness :
    handleGeneratePdf (fun _ => .ok []) {} =
      ({ status := 400, contentType := none, contentLength := none
         body := .json "HTML is required" none }, false) :=
  missing_html_rejected_without_render _ _ (by decide)

/-- C3: when the backend throws on a request with non-empty `html`, the
response is status 500 with body `error: "Failed to generate PDF"` and a
`message` equal to the thrown Error's message, or "Unknown error" for a
non-Error thrown value; the body carries no PDF bytes. -/
theorem render_error_maps_to_500
    (render : PdfGenerationOptions → Except JsThrown Buffer)
    (req : GenerateRequestBody) (e : JsThrown)
    (h1 : strTruthy req.html = true)
    (h2 : render (handlerOptions req) = .error e) :
    handleGeneratePdf render req =
      ({ status := 500, contentType := none, contentLength := none
         body := .json "Failed to generate PDF" (some (jsErrorText e)) }, true) ∧
    (∀ m, e = .error m → jsErrorText e = m) ∧
    (e = .nonError → jsErrorText e = "Unknown error") := by
  refine ⟨?_, ?_, ?_⟩
  · unfold handleGeneratePdf
    rw [h1, h2]
    simp
  · intro m hm
    rw [hm]
    rfl
  · intro hm
    rw [hm]
    rfl

/-- Witness for C3: a concrete throwing backend yields the 500 envelope. -/
theorem render_error_maps_to_500_witness :
    handleGeneratePdf (fun _ => .error (.error "launch failed")) { html := some "<p>x</p>" } =
      ({ status := 500, contentType := none, contentLength := none
         body := .json "Failed to generate PDF" (some (jsErrorText (.error "launch failed"))) }, true) :=
  (render_error_maps_to_500 _ _ (.error "launch failed") (by decide) rfl).1

/-- C8: when the backend succeeds, the response has status 200, content type
`application/pdf`, a content length equal to the byte length of the PDF
buffer, and the buffer itself as body. -/
theorem success_response_shape
    (render : PdfGenerationOptions → Except JsThrown Buffer)
    (req : GenerateRequestBody) (buf : Buffer)
    (h1 : strTruthy req.html = true)
    (h2 : render (handlerOptions req) = .ok buf) :
    handleGeneratePdf render req =
      ({ status := 200, contentType := some "application/pdf"
         contentLength := some buf.length, body := .pdfBytes buf }, true) := by
  unfold handleGeneratePdf
  rw [h1, h2]
  simp

/-- Witness for C8: a concrete successful render is sent with matching
length header. -/
theorem success_response_shape_witness :
    handleGeneratePdf (fun _ => .ok [37, 80, 68, 70]) { html := some "<p>x</p>" } =
      ({ status := 200, contentType := some "application/pdf"
         contentLength := some 4, body := .pdfBytes [37, 80, 68, 70] }, true) :=
  success_response_shape _ _ [37, 80, 68, 70] (by decide) rfl

/-- Helper: a string other than `""` reports nonempty. -/
theorem isEmpty_false_of_ne {u : String} (hu : u ≠ "") : u.isEmpty = false := by
  cases he : u.isEmpty with
  | false => rfl
  | true => exact absurd ((String.isEmpty_iff u).mp he) hu

/-- Helper: a non-empty string is truthy. -/
theorem strTruthy_some_of_ne {u : String} (hu : u ≠ "") : strTruthy (some u) = true := by
  simp [strTruthy, isEmpty_false_of_ne hu]

/-- C4: with a logo the effective top margin handed to the renderer is
strictly larger than without one — some "3cm" against some "2.12cm" for the
static-template backend and some "4.23cm" against some "2.12cm" for the
browser-engine backend (compared in hundredths of a centimetre) — while the
right, bottom and left margins are unchanged. -/
theorem logo_enlarges_top_margin_only (req : GenerateRequestBody) (u : String) (hu : u ≠ "") :
    ((wkOptionsBase (handlerOptions { req with logoUrl := some u })).marginTop = some "3cm" ∧
     (wkOptionsBase (handlerOptions { req with logoUrl := none })).marginTop = some "2.12cm" ∧
     parseCmHundredths "3cm" = some 300 ∧ parseCmHundredths "2.12cm" = some 212 ∧ 212 < 300) ∧
    ((puppeteerPdfMargin (handlerOptions { req with logoUrl := some u })).top = some "4.23cm" ∧
     (puppeteerPdfMargin (handlerOptions { req with logoUrl := none })).top = some "2.12cm" ∧
     parseCmHundredths "4.23cm" = some 423 ∧ 212 < 423) ∧
    ((wkOptionsBase (handlerOptions { req with logoUrl := some u })).marginRight =
       (wkOptionsBase (handlerOptions { req with logoUrl := none })).marginRight ∧
     (wkOptionsBase (handlerOptions { req with logoUrl := some u })).marginBottom =
       (wkOptionsBase (handlerOptions { req with logoUrl := none })).marginBottom ∧
     (wkOptionsBase (handlerOptions { req with logoUrl := some u })).marginLeft =
       (wkOptionsBase (handlerOptions { req with logoUrl := none })).marginLeft ∧
     (puppeteerPdfMargin (handlerOptions { req with logoUrl := some u })).right =
       (puppeteerPdfMargin (handlerOptions { req with logoUrl := none })).right ∧
     (puppeteerPdfMargin (handlerOptions { req with logoUrl := some u })).bottom =
       (puppeteerPdfMargin (handlerOptions { req with logoUrl := none })).bottom ∧
     (puppeteerPdfMargin (handlerOptions { req with logoUrl := some u })).left =
       (puppeteerPdfMargin (handlerOptions { req with logoUrl := none })).left) := by
  have he := isEmpty_false_of_ne hu
  refine ⟨⟨?_, ?_, by decide, by decide, by decide⟩,
          ⟨?_, ?_, by decide, by decide⟩, ?_, ?_, ?_, ?_, ?_, ?_⟩ <;>
    simp [wkOptionsBase, puppeteerPdfMargin, handlerOptions, effMargin, strTruthy, he]

/-- Witness for C4: the static-template top margin for a concrete request
with a logo. -/
theorem logo_enlarges_top_margin_only_witness :
    (wkOptionsBase (handlerOptions
      { ({} : GenerateRequestBody) with
          logoUrl := some "https://example.com/logo.png" })).marginTop = some "3cm" :=
  (logo_enlarges_top_margin_only {} "https://example.com/logo.png" (by decide)).1.1

/-- C7: the stylesheet text handed to the renderer is the default stylesheet
text, then a newline, then the caller CSS (empty when absent); a missing
default stylesheet file contributes the empty string and raises no error. -/
theorem stylesheet_concatenation (wenv : WkEnv) (benv : BrowserEnv) (o : PdfGenerationOptions) :
    (∀ d, (generatePdfWk wenv o).templateData = some d →
        d.css = wenv.stylesCssFile.getD "" ++ "\n" ++ o.css.getD "") ∧
    (∀ s, (generatePdfPuppeteer benv o).contentSet = some s →
        s = puppeteerFullHtml (benv.stylesCssFile.getD "" ++ "\n" ++ o.css.getD "")
              (puppeteerLogoHtml o) o.html) ∧
    (wenv.stylesCssFile = none →
        finalCss wenv.stylesCssFile o.css = "" ++ "\n" ++ o.css.getD "") := by
  refine ⟨?_, ?_, ?_⟩
  · intro d hd
    obtain ⟨tf, scss, dn, now, sr⟩ := wenv
    cases tf with
    | error e0 => simp [generatePdfWk] at hd
    | ok t =>
        cases sr <;> simp [generatePdfWk] at hd <;>
          rw [← hd] <;> simp [wkTemplateData, finalCss]
  · intro s hs
    obtain ⟨l, np, st, sc, pf, cl⟩ := benv
    cases l with
    | error e0 => simp [generatePdfPuppeteer] at hs
    | ok _ =>
        cases np with
        | error e0 => simp [generatePdfPuppeteer] at hs
        | ok _ =>
            cases sc <;> cases pf <;> simp [generatePdfPuppeteer] at hs <;>
              rw [← hs] <;> simp [finalCss]
  · intro h
    simp [finalCss, h]

/-- Witness for C7: concrete default stylesheet and caller CSS are joined by
a newline in the fields handed to the template. -/
theorem stylesheet_concatenation_witness :
    (wkTemplateData (some "DEFAULT") { html := "<p>x</p>", css := some "CUSTOM" }).css =
      (some "DEFAULT" : Option String).getD "" ++ "\n" ++
        (some "CUSTOM" : Option String).getD "" :=
  (stylesheet_concatenation
      { templateFile := .ok "TPL", stylesCssFile := some "DEFAULT", dirname := "/srv"
        now := 0, streamResult := .ok [] }
      { launchResult := .ok (), newPageResult := .ok (), stylesCssFile := none
        setContentResult := .ok (), pdfResult := .ok [], closeResult := .ok () }
      { html := "<p>x</p>", css := some "CUSTOM" }).1 _ rfl

/-- C9: with `logoUrl` absent, no header block exists anywhere: the
Puppeteer variants interpolate the empty string in place of the header, and
the static-template backend passes a null `logoUrl` to the template, writes
no temporary header file and sets no header option. -/
theorem absent_logo_no_header (benv : BrowserEnv) (wenv : WkEnv) (o : PdfGenerationOptions)
    (h : o.logoUrl = none) :
    puppeteerLogoHtml o = "" ∧
    (∀ s, (generatePdfPuppeteer benv o).contentSet = some s →
        s = puppeteerFullHtml (finalCss benv.stylesCssFile o.css) "" o.html) ∧
    (∀ d, (generatePdfWk wenv o).templateData = some d → d.logoUrl = none) ∧
    (generatePdfWk wenv o).headerFileWritten = none ∧
    (∀ w, (generatePdfWk wenv o).wkhtmlOptions = some w → w.headerHtml = none) := by
  have ht : strTruthy o.logoUrl = false := by rw [h]; rfl
  refine ⟨?_, ?_, ?_, ?_, ?_⟩
  · simp [puppeteerLogoHtml, ht]
  · intro s hs
    obtain ⟨l, np, st, sc, pf, cl⟩ := benv
    cases l with
    | error e0 => simp [generatePdfPuppeteer] at hs
    | ok _ =>
        cases np with
        | error e0 => simp [generatePdfPuppeteer] at hs
        | ok _ =>
            cases sc <;> cases pf <;> simp [generatePdfPuppeteer] at hs <;>
              rw [← hs] <;> simp [puppeteerLogoHtml, ht]
  · intro d hd
    obtain ⟨tf, scss, dn, now, sr⟩ := wenv
    cases tf with
    | error e0 => simp [generatePdfWk] at hd
    | ok t =>
        cases sr <;> simp [generatePdfWk] at hd <;>
          rw [← hd] <;> simp [wkTemplateData, ht]
  · obtain ⟨tf, scss, dn, now, sr⟩ := wenv
    cases tf with
    | error e0 => simp [generatePdfWk]
    | ok t => cases sr <;> simp [generatePdfWk, ht]
  · intro w hw
    obtain ⟨tf, scss, dn, now, sr⟩ := wenv
    cases tf with
    | error e0 => simp [generatePdfWk] at hw
    | ok t =>
        cases sr <;> simp [generatePdfWk] at hw <;>
          rw [← hw] <;> simp [wkOptionsFinal, wkOptionsBase, ht]

/-- Witness for C9: a concrete request without a logo interpolates the empty
header fragment. -/
theorem absent_logo_no_header_witness :
    puppeteerLogoHtml { html := "<p>x</p>" } = "" :=
  (absent_logo_no_header
      { launchResult := .ok (), newPageResult := .ok (), stylesCssFile := none
        setContentResult := .ok (), pdfResult := .ok [], closeResult := .ok () }
      { templateFile := .ok "TPL", stylesCssFile := none, dirname := "/srv"
        now := 0, streamResult := .ok [] }
      { html := "<p>x</p>" } rfl).1

/-- Helper for C10: a thrown value leaving a Puppeteer render call either
carries the fixed wrapper text, or is exactly the rejection of the unguarded
`await browser.close()` in the finally block, which supersedes the wrapped
error or the successful return. -/
theorem puppeteerWrappedUnlessCloseRejects (env : BrowserEnv) (o : PdfGenerationOptions)
    (e : JsThrown) (h : (generatePdfPuppeteer env o).result = .error e) :
    (∃ rest, e = .error ("Failed to generate PDF: " ++ rest)) ∨
      (env.launchResult = .ok () ∧ env.closeResult = .error e) := by
  obtain ⟨l, np, st, sc, pf, cl⟩ := env
  cases l with
  | error e0 =>
      left
      refine ⟨jsErrorText e0, ?_⟩
      simp [generatePdfPuppeteer] at h
      exact h.symm
  | ok _ =>
      cases cl with
      | error c =>
          right
          simp [generatePdfPuppeteer] at h
          exact ⟨rfl, by rw [h]⟩
      | ok _ =>
          cases np with
          | error e0 =>
              left
              refine ⟨jsErrorText e0, ?_⟩
              simp [generatePdfPuppeteer] at h
              exact h.symm
          | ok _ =>
              cases sc with
              | error e0 =>
                  left
                  refine ⟨jsErrorText e0, ?_⟩
                  simp [generatePdfPuppeteer] at h
                  exact h.symm
              | ok _ =>
                  cases pf with
                  | error e0 =>
                      left
                      refine ⟨jsErrorText e0, ?_⟩
                      simp [generatePdfPuppeteer] at h
                      exact h.symm
                  | ok buf => simp [generatePdfPuppeteer] at h

/-- Helper for C10: every thrown value leaving a wkhtmltopdf render call is
an Error whose message carries the fixed wrapper text (the whole body of
that generator sits inside the try/catch; there is no release step). -/
theorem wkResultErrorWrapped (env : WkEnv) (o : PdfGenerationOptions)
    (e : JsThrown) (h : (generatePdfWk env o).result = .error e) :
    ∃ rest, e = .error ("Failed to generate PDF: " ++ rest) := by
  obtain ⟨tf, scss, dn, now, sr⟩ := env
  cases tf with
  | error e0 =>
      refine ⟨jsErrorText e0, ?_⟩
      simp [generatePdfWk] at h
      exact h.symm
  | ok t =>
      cases sr with
      | error e0 =>
          refine ⟨jsErrorText e0, ?_⟩
          simp [generatePdfWk] at h
          exact h.symm
      | ok buf => simp [generatePdfWk] at h

/-- C10 counterexample: a Puppeteer render whose `browser.close()` rejects
fails with the bare close-error message, which does not begin with
"Failed to generate PDF: " — the unguarded close in the finally block
supersedes the catch-block wrapping (here it even supersedes a successful
print), so the claimed universal wrapping fails on the code. -/
theorem close_failure_bare_message :
    (generatePdfPuppeteer
      { launchResult := .ok (), newPageResult := .ok (), stylesCssFile := none
        setContentResult := .ok (), pdfResult := .ok [37, 80, 68, 70]
        closeResult := .error (.error "close failed") }
      { html := "<p>x</p>" }).result = .error (.error "close failed") ∧
    ¬ ∃ rest, (JsThrown.error "close failed") =
        .error ("Failed to generate PDF: " ++ rest) := by
  constructor
  · rfl
  · rintro ⟨rest, hco⟩
    have h1 : "close failed" = "Failed to generate PDF: " ++ rest := by
      injection hco
    have hL := congrArg String.length h1
    rw [String.length_append] at hL
    have ha : ("close failed" : String).length = 12 := by decide
    have hb : ("Failed to generate PDF: " : String).length = 24 := by decide
    omega

/-- C10 amended: a failing static-template render always throws a new Error
whose message is "Failed to generate PDF: " followed by the underlying
message (or "Unknown error"), and so does a failing Puppeteer render unless
the failure is the rejection of `browser.close()` itself — an unguarded
close rejection in the finally block supersedes the wrapped error or the
successful return and propagates bare.  Consequently the 500 envelope of the
handler wired to the static-template backend that src/index.ts imports
always carries the wrapper text. -/
theorem generator_failures_wrap_message :
    (∀ (env : BrowserEnv) (o : PdfGenerationOptions) (e : JsThrown),
        (generatePdfPuppeteer env o).result = .error e →
        (∃ rest, e = .error ("Failed to generate PDF: " ++ rest)) ∨
          (env.launchResult = .ok () ∧ env.closeResult = .error e)) ∧
    (∀ (env : BrowserEnv) (o : PdfGenerationOptions) (c : JsThrown),
        env.launchResult = .ok () → env.closeResult = .error c →
        (generatePdfPuppeteer env o).result = .error c) ∧
    (∀ (env : WkEnv) (o : PdfGenerationOptions) (e : JsThrown),
        (generatePdfWk env o).result = .error e →
        ∃ rest, e = .error ("Failed to generate PDF: " ++ rest)) ∧
    (∀ (env : WkEnv) (req : GenerateRequestBody) (resp : HttpResponse) (invoked : Bool),
        handleGeneratePdf (fun o => (generatePdfWk env o).result) req = (resp, invoked) →
        resp.status = 500 →
        ∃ rest, resp.body =
          .json "Failed to generate PDF" (some ("Failed to generate PDF: " ++ rest))) := by
  refine ⟨puppeteerWrappedUnlessCloseRejects, ?_, wkResultErrorWrapped, ?_⟩
  · intro env o c h1 h2
    unfold generatePdfPuppeteer
    rw [h1, h2]
  · intro env req resp invoked h h500
    by_cases ht : strTruthy req.html = true
    · unfold handleGeneratePdf at h
      rw [ht] at h
      simp only [Bool.not_true, Bool.false_eq_true, if_false] at h
      cases hr : (generatePdfWk env (handlerOptions req)).result with
      | ok buf =>
          rw [hr] at h
          injection h with h1 h2
          rw [← h1] at h500
          simp at h500
      | error e =>
          rw [hr] at h
          injection h with h1 h2
          obtain ⟨rest, hw⟩ := wkResultErrorWrapped env (handlerOptions req) e hr
          refine ⟨rest, ?_⟩
          rw [← h1, hw]
          rfl
    · unfold handleGeneratePdf at h
      have ht2 : strTruthy req.html = false := by
        cases hv : strTruthy req.html with
        | false => rfl
        | true => exact absurd hv ht
      rw [ht2] at h
      simp only [Bool.not_false, if_true] at h
      injection h with h1 h2
      rw [← h1] at h500
      simp at h500

/-- Witness for C10: a concrete close rejection propagates bare, landing in
the right disjunct of the amended characterization. -/
theorem generator_failures_wrap_message_witness :
    (∃ rest, (JsThrown.error "close failed" : JsThrown) =
        .error ("Failed to generate PDF: " ++ rest)) ∨
      ((Except.ok () : Except JsThrown Unit) = .ok () ∧
       (Except.error (JsThrown.error "close failed") : Except JsThrown Unit) =
         .error (.error "close failed")) :=
  generator_failures_wrap_message.1
    { launchResult := .ok (), newPageResult := .ok (), stylesCssFile := none
      setContentResult := .ok (), pdfResult := .ok [37]
      closeResult := .error (.error "close failed") }
    { html := "<p>x</p>" }
    (.error "close failed") (by decide)

/-- C5 counterexample: in the Puppeteer variants an unrecognized
`logoPosition` value falls through the switch, so the composed header markup
is NOT identical to the markup composed for LEFT (the text-align declaration
is missing). -/
theorem unrecognized_position_markup_differs :
    generateLogoHtml "https://example.com/logo.png" "TOP" ≠
      generateLogoHtml "https://example.com/logo.png" "LEFT" := by decide

/-- C5 amended: the four declared `logoPosition` values map to
left/center/right/center-with-full-width in both generator variants; an
unrecognized value behaves exactly like LEFT in the static-template variant
(the lookup falls back to "left"), while in the Puppeteer variants it leaves
the alignment style empty, producing markup that differs from LEFT's for
every logo URL. -/
theorem logo_position_mapping :
    (logoAlignStyle "LEFT" = "text-align: left;" ∧
     logoAlignStyle "CENTER" = "text-align: center;" ∧
     logoAlignStyle "RIGHT" = "text-align: right;" ∧
     logoAlignStyle "FULL_WIDTH" = "text-align: center;" ∧
     logoWidthStyle "FULL_WIDTH" = "100%" ∧ logoWidthStyle "LEFT" = "120px" ∧
     logoWidthStyle "CENTER" = "120px" ∧ logoWidthStyle "RIGHT" = "120px") ∧
    (logoPositionMap "LEFT" = some "left" ∧ logoPositionMap "CENTER" = some "center" ∧
     logoPositionMap "RIGHT" = some "right" ∧ logoPositionMap "FULL_WIDTH" = some "center") ∧
    (∀ p, p ≠ "LEFT" → p ≠ "CENTER" → p ≠ "RIGHT" → p ≠ "FULL_WIDTH" →
        (logoPositionMap p).getD "left" = (logoPositionMap "LEFT").getD "left" ∧
        logoAlignStyle p = "" ∧
        ∀ u, generateLogoHtml u p ≠ generateLogoHtml u "LEFT") := by
  refine ⟨by decide, by decide, ?_⟩
  intro p h1 h2 h3 h4
  have ha : logoAlignStyle p = "" := by simp [logoAlignStyle, h1, h2, h3, h4]
  have hw : logoWidthStyle p = "120px" := by simp [logoWidthStyle, h4]
  have hm : logoMaxHeight p = "60px" := by simp [logoMaxHeight, h4]
  refine ⟨by simp [logoPositionMap, h1, h2, h3, h4], ha, ?_⟩
  intro u hEq
  have hl1 : logoAlignStyle "LEFT" = "text-align: left;" := by decide
  have hw1 : logoWidthStyle "LEFT" = "120px" := by decide
  have hm1 : logoMaxHeight "LEFT" = "60px" := by decide
  unfold generateLogoHtml at hEq
  rw [ha, hw, hm, hl1, hw1, hm1] at hEq
  have hL := congrArg String.length hEq
  simp only [String.length_append] at hL
  have h0 : ("" : String).length = 0 := rfl
  have h17 : ("text-align: left;" : String).length = 17 := by decide
  rw [h0, h17] at hL
  omega

/-- Witness for C5: the map fallback, the empty align style and the markup
difference at a concrete unrecognized value. -/
theorem logo_position_mapping_witness :
    (logoPositionMap "TOP").getD "left" = (logoPositionMap "LEFT").getD "left" ∧
    logoAlignStyle "TOP" = "" ∧
    ∀ u, generateLogoHtml u "TOP" ≠ generateLogoHtml u "LEFT" :=
  logo_position_mapping.2.2 "TOP" (by decide) (by decide) (by decide) (by decide)

set_option maxRecDepth 4000 in
/-- C6 counterexample: two different concurrent requests that observe the
same `Date.now()` millisecond value write their header markup under the same
temporary file path, so header file names do collide across concurrent
requests. -/
theorem header_filename_collision :
    ((generatePdfWk
        { templateFile := .ok "TPL", stylesCssFile := none, dirname := "/app/dist"
          now := 1700000000000, streamResult := .ok [37] }
        { html := "<p>a</p>"
          logoUrl := some "https://a.example/logo.png" }).headerFileWritten.map Prod.fst =
      (generatePdfWk
        { templateFile := .ok "TPL", stylesCssFile := none, dirname := "/app/dist"
          now := 1700000000000, streamResult := .ok [37] }
        { html := "<p>b</p>"
          logoUrl := some "https://b.example/logo.png" }).headerFileWritten.map Prod.fst) ∧
    (generatePdfWk
        { templateFile := .ok "TPL", stylesCssFile := none, dirname := "/app/dist"
          now := 1700000000000, streamResult := .ok [37] }
        { html := "<p>a</p>"
          logoUrl := some "https://a.example/logo.png" }).headerFileWritten.map Prod.fst =
      some ("/app/dist/temp/" ++ wkHeaderFileName 1700000000000) := by
  constructor <;> rfl

/-- C6 amended: header file names (and full header paths) are distinct
exactly when the observed `Date.now()` values are distinct; requests served
within the same millisecond receive the same name, so collision-freedom
rests entirely on timestamp distinctness. -/
theorem header_filenames_distinct_iff_timestamps (dirname : String) (t1 t2 : Nat) :
    (wkHeaderFileName t1 = wkHeaderFileName t2 ↔ t1 = t2) ∧
    (wkHeaderPath dirname t1 = wkHeaderPath dirname t2 ↔ t1 = t2) := by
  have hname : ∀ a b : Nat, wkHeaderFileName a = wkHeaderFileName b → a = b := by
    intro a b h
    have hd := congrArg String.data h
    simp only [wkHeaderFileName, String.data_append] at hd
    exact natReprData_inj (List.append_cancel_left (List.append_cancel_right hd))
  refine ⟨⟨hname t1 t2, fun h => by rw [h]⟩, ⟨?_, fun h => by rw [h]⟩⟩
  intro h
  have hd := congrArg String.data h
  simp only [wkHeaderPath, String.data_append] at hd
  have hn : (wkHeaderFileName t1).data = (wkHeaderFileName t2).data :=
    List.append_cancel_left hd
  apply hname
  have : wkHeaderFileName t1 = ⟨(wkHeaderFileName t1).data⟩ := rfl
  rw [this, hn]

end PdfService
